import Mathlib

/-!
Shallow embedding of the safer-mcp-atlassian mixins
(src/mcp_atlassian/jira/worklog.py, src/mcp_atlassian/jira/comments.py,
src/mcp_atlassian/confluence/pages.py) together with theorems checking the
natural-language specification against the code.

Python scalar values that flow through the JSON-mapping code are modelled by
the inductive type PyVal; Python dictionaries are association lists with
unique keys (API responses are parsed JSON, which has unique keys).
Python builtin conversions int() and float() are modelled on ASCII input:
whitespace stripping, an optional sign, digit groups with underscores
between digits, and for float() the inf / infinity / nan spellings and the
binary64 overflow threshold.  Two simplifications are documented where they
occur: Unicode digits are not modelled, and rounding of finite decimal
literals to binary64 before truncation is not modelled (the exact decimal
value is truncated instead); no claim in this development depends on either.
-/

set_option maxRecDepth 8000
set_option exponentiation.threshold 1100

namespace MCPAtlassian

/-- Model of the Python scalar values appearing in the JSON-mapping code. -/
inductive PyVal where
  | pynone : PyVal
  | str (s : String) : PyVal
  | int (n : Int) : PyVal
  | bool (b : Bool) : PyVal
  | dict (fields : List (String × PyVal)) : PyVal
  | list (xs : List PyVal) : PyVal

/-- Model of Python dict.get(key, default) on an association list. -/
def pyDictGet : List (String × PyVal) → String → PyVal → PyVal
  | [], _, d => d
  | (k, v) :: rest, key, d => if k = key then v else pyDictGet rest key d

/-- Characters stripped by Python int() / float() before parsing
(the ASCII whitespace characters). -/
def isPySpace (c : Char) : Bool :=
  c = ' ' || c = '\t' || c = '\n' || c = '\r' || c = '\x0b' || c = '\x0c'

/-- Strip leading and trailing Python whitespace from a character list. -/
def stripChars (cs : List Char) : List Char :=
  ((cs.dropWhile isPySpace).reverse.dropWhile isPySpace).reverse

/-- Numeric value of an ASCII digit character. -/
def digitVal (c : Char) : Nat := c.toNat - 48

/-- Continuation of a Python digit group after its first digit: matches
(("_")? digit)* exactly, accumulating the value.  A lone or doubled
underscore, or an underscore at the end, rejects the group, as in Python. -/
def digitGroupAux : Nat → List Char → Option Nat
  | acc, [] => some acc
  | acc, '_' :: c :: rest =>
      if c.isDigit then digitGroupAux (acc * 10 + digitVal c) rest else none
  | _, '_' :: [] => none
  | acc, c :: rest =>
      if c.isDigit then digitGroupAux (acc * 10 + digitVal c) rest else none

/-- Python digit group digit (("_")? digit)*: the whole list must match. -/
def digitGroup : List Char → Option Nat
  | [] => none
  | c :: rest => if c.isDigit then digitGroupAux (digitVal c) rest else none

/-- Model of Python int(s) on ASCII input: strip whitespace, optional sign,
then a digit group.  Unicode digits accepted by CPython are not modelled. -/
def pyIntOfString (s : String) : Option Int :=
  match stripChars s.data with
  | '+' :: rest => (digitGroup rest).map (fun n => (n : Int))
  | '-' :: rest => (digitGroup rest).map (fun n => -(n : Int))
  | rest => (digitGroup rest).map (fun n => (n : Int))

/-- Possibly empty Python digit group, returning the value and the number of
digit characters (used for the parts of a float literal, each of which may
be empty as long as the mantissa has at least one digit overall). -/
def digitGroupOpt : List Char → Option (Nat × Nat)
  | [] => some (0, 0)
  | c :: rest =>
      if c.isDigit then
        (digitGroupCount (digitVal c) 1 rest)
      else none
where
  /-- Continuation tracking both accumulated value and digit count. -/
  digitGroupCount : Nat → Nat → List Char → Option (Nat × Nat)
  | acc, cnt, [] => some (acc, cnt)
  | acc, cnt, '_' :: c :: rest =>
      if c.isDigit then digitGroupCount (acc * 10 + digitVal c) (cnt + 1) rest
      else none
  | _, _, '_' :: [] => none
  | acc, cnt, c :: rest =>
      if c.isDigit then digitGroupCount (acc * 10 + digitVal c) (cnt + 1) rest
      else none

/-- Split a character list at the first character satisfying p; the second
component is none when no such character occurs. -/
def splitAtFirst (p : Char → Bool) : List Char → List Char × Option (List Char)
  | [] => ([], none)
  | c :: rest =>
      if p c then ([], some rest)
      else
        let (a, b) := splitAtFirst p rest
        (c :: a, b)

/-- Parse the body of a finite Python float literal (sign already removed):
returns (mantissa digits as a natural number, number of fraction digits,
decimal exponent), so that the value is mantissa * 10 ^ (exponent -
fraction digits).  Follows the CPython grammar: optional integer part,
optional "." with optional fraction part (at least one mantissa digit
overall), optional exponent marker e or E with optional sign and a
mandatory digit group. -/
def parseFiniteFloat (cs : List Char) : Option (Nat × Nat × Int) :=
  let (mant, expPart) := splitAtFirst (fun c => c = 'e' || c = 'E') cs
  let (ipart, fpart) := splitAtFirst (fun c => c = '.') mant
  match digitGroupOpt ipart with
  | none => none
  | some (iv, ic) =>
    match (match fpart with
           | none => some ((0 : Nat), (0 : Nat))
           | some fcs => digitGroupOpt fcs) with
    | none => none
    | some (fv, fc) =>
      if ic + fc = 0 then none
      else
        let M := iv * 10 ^ fc + fv
        match expPart with
        | none => some (M, fc, 0)
        | some ecs =>
          let (esign, edigits) : Int × List Char :=
            match ecs with
            | '+' :: r => (1, r)
            | '-' :: r => (-1, r)
            | r => (1, r)
          match digitGroupOpt edigits with
          | some (ev, ec) => if ec = 0 then none else some (M, fc, esign * ev)
          | none => none

/-- Outcome of the Python expression int(float(s)): the integer, a
ValueError (raised by float() on unparsable input or by int() on nan), or
an OverflowError (raised by int() on an infinite float). -/
inductive NumFallback where
  | ok (n : Int) : NumFallback
  | valueError : NumFallback
  | overflowError : NumFallback
  deriving DecidableEq

/-- Smallest decimal magnitude that the CPython string-to-float conversion
rounds up to infinity (halfway between the largest finite binary64 value
and 2 ^ 1024, with ties rounding to even, hence to infinity). -/
def floatOverflowBound : Nat := 2 ^ 1024 - 2 ^ 970

/-- Model of the Python expression int(float(s)) as it appears in
worklog.py line 54.  float() strips whitespace, takes an optional sign,
accepts inf / infinity / nan case-insensitively, and otherwise parses a
decimal literal; decimal values at or beyond the binary64 overflow
threshold become infinity.  int() then truncates toward zero, raising
ValueError on nan and OverflowError on an infinity.  Rounding of finite
values to binary64 before truncation is not modelled: the exact decimal
value is truncated instead (no claim below depends on that corner). -/
def pyIntOfFloat (s : String) : NumFallback :=
  let cs := stripChars s.data
  let (sign, body) : Int × List Char :=
    match cs with
    | '+' :: r => (1, r)
    | '-' :: r => (-1, r)
    | r => (1, r)
  let lower := body.map Char.toLower
  if lower = "inf".data || lower = "infinity".data then .overflowError
  else if lower = "nan".data then .valueError
  else
    match parseFiniteFloat body with
    | none => .valueError
    | some (M, f, e) =>
      if M = 0 then .ok 0
      else if (f : Int) ≤ e then
        let v := M * 10 ^ (e - f).toNat
        if floatOverflowBound ≤ v then .overflowError else .ok (sign * v)
      else
        let d := ((f : Int) - e).toNat
        if floatOverflowBound * 10 ^ d ≤ M then .overflowError
        else .ok (sign * (M / 10 ^ d))

/-- Model of Python str.endswith("s"): the last character is s. -/
def endsWithS (s : String) : Bool :=
  match s.data.getLast? with
  | some c => c = 's'
  | none => false

/-- Model of the Python slice s[:-1]: drop the last character. -/
def pyDropLast (s : String) : String := ⟨s.data.dropLast⟩

/-- Characters accepted by the unit class of the worklog regular
expression (the character class wdhm in worklog.py line 43). -/
def isUnitChar (c : Char) : Bool :=
  c = 'w' || c = 'd' || c = 'h' || c = 'm'

/-- Value of a digit run, as matched by a group of consecutive digits. -/
def digitsToNat (ds : List Char) : Nat :=
  ds.foldl (fun a c => a * 10 + digitVal c) 0

/-- Single-pass scan equivalent to re.findall with the worklog pattern
(one or more digits captured, then one unit letter captured) on worklog.py
line 43-44: the state carries the value of the digit run currently being
read (none when the previous character was not a digit).  A maximal digit
run immediately followed by a unit letter yields a match; any other
character resets the state.  This matches the regex semantics because a
proper suffix of a digit run is followed by the same non-unit character
and therefore can never start a match the full run missed. -/
def findTimeMatchesAux : Option Nat → List Char → List (Nat × Char)
  | _, [] => []
  | run, c :: rest =>
      if c.isDigit then
        findTimeMatchesAux (some ((run.getD 0) * 10 + digitVal c)) rest
      else
        match run with
        | some v =>
            if isUnitChar c then (v, c) :: findTimeMatchesAux none rest
            else findTimeMatchesAux none rest
        | none => findTimeMatchesAux none rest

/-- Matches of the worklog time-component pattern in a string, in order. -/
def findTimeMatches (cs : List Char) : List (Nat × Char) :=
  findTimeMatchesAux none cs

/-- Seconds per unit, from the time_units dictionary in worklog.py lines
35-40.  The catch-all branch is unreachable: the function is only applied
to characters produced by the unit character class. -/
def time_units : Char → Nat
  | 'w' => 7 * 24 * 60 * 60
  | 'd' => 24 * 60 * 60
  | 'h' => 60 * 60
  | 'm' => 60
  | _ => 0

/-- Sum of value times unit-seconds over all pattern matches, as computed
by the accumulation loop in worklog.py lines 46-49. -/
def matchSum (s : String) : Nat :=
  (findTimeMatches s.data).foldl (fun acc m => acc + m.1 * time_units m.2) 0

/-- Result of WorklogMixin._parse_time_spent: an integer, or an uncaught
OverflowError escaping from int(float(s)) (the handler on worklog.py line
55 catches only ValueError). -/
inductive WorklogParse where
  | ok (n : Int) : WorklogParse
  | overflowError : WorklogParse
  deriving DecidableEq

/-- Embedding of WorklogMixin._parse_time_spent (worklog.py lines 17-62):
if the string ends in s, try int() on the rest and return it on success;
then sum all value-times-unit matches; if that sum is zero, try
int(float(whole string)), returning 60 when it raises ValueError and
propagating an OverflowError; otherwise return the sum. -/
def parse_time_spent (time_spent : String) : WorklogParse :=
  let direct : Option Int :=
    if endsWithS time_spent then pyIntOfString (pyDropLast time_spent)
    else none
  match direct with
  | some n => .ok n
  | none =>
    let total := matchSum time_spent
    if total = 0 then
      match pyIntOfFloat time_spent with
      | .ok n => .ok n
      | .valueError => .ok 60
      | .overflowError => .overflowError
    else .ok (total : Int)

/-- Model of the Python method str.lower() as used on the visibility
argument, mapping each character to lower case (the relevant inputs are
ASCII; full Unicode case mapping is not modelled). -/
def pyLower (s : String) : String := ⟨s.data.map Char.toLower⟩

/-- Embedding of the visibility resolution in CommentsMixin.add_comment
(comments.py lines 74-87): the global force_internal_comments flag wins;
with no explicit visibility the comment is public; otherwise the lowercased
value internal means internal, public means public, and anything else
falls back to internal. -/
def should_be_internal (force_internal_comments : Bool)
    (visibility : Option String) : Bool :=
  if force_internal_comments then true
  else
    match visibility with
    | none => false
    | some v =>
      if pyLower v = "internal" then true
      else if pyLower v = "public" then false
      else true

/-- The request issued by CommentsMixin.add_comment to post the comment:
either a direct POST of a JSON body to the issue comment URL, or the
standard issue_add_comment call of the wrapped client. -/
inductive CommentRequest where
  | post (url : String) (body : PyVal) : CommentRequest
  | issue_add_comment (issue_key : String) (body : String) : CommentRequest

/-- Embedding of the posting branch of CommentsMixin.add_comment
(comments.py lines 89-108): an internal comment is posted by a direct
POST whose JSON body carries the formatted text and a properties list with
the sd.public.comment key and the value dict mapping internal to true; a
public comment goes through issue_add_comment with just the text. -/
def add_comment_request (force_internal_comments : Bool)
    (visibility : Option String) (base_url issue_key formatted : String) :
    CommentRequest :=
  if should_be_internal force_internal_comments visibility then
    .post (base_url ++ "/" ++ issue_key ++ "/comment")
      (.dict
        [("body", .str formatted),
         ("properties",
          .list
            [.dict
              [("key", .str "sd.public.comment"),
               ("value", .dict [("internal", .bool true)])]])])
  else .issue_add_comment issue_key formatted

/-- Flat comment record built by CommentsMixin.get_issue_comments
(comments.py lines 41-47). -/
structure ProcessedComment where
  id : PyVal
  body : PyVal
  created : String
  updated : String
  author : PyVal

/-- Embedding of the per-comment mapping in get_issue_comments
(comments.py lines 41-47), parameterised by the externally supplied
_clean_text helper and by the composition of str() and parse_date applied
to the date fields.  A present author value that is not a dict would make
the attribute access .get on it raise, which the error constructor
records. -/
def process_comment (clean_text : PyVal → PyVal)
    (str_parse_date : PyVal → String) (comment : List (String × PyVal)) :
    Except Unit ProcessedComment :=
  match pyDictGet comment "author" (.dict []) with
  | .dict afs =>
    .ok
      { id := pyDictGet comment "id" .pynone
        body := clean_text (pyDictGet comment "body" (.str ""))
        created := str_parse_date (pyDictGet comment "created" .pynone)
        updated := str_parse_date (pyDictGet comment "updated" .pynone)
        author := pyDictGet afs "displayName" (.str "Unknown") }
  | _ => .error ()

/-- Model of the Python slice xs[:k] for an int k: the first k elements
when k is nonnegative, and all but the last -k elements otherwise. -/
def pySliceTake (k : Int) (xs : List α) : List α :=
  if 0 ≤ k then xs.take k.toNat
  else xs.take (xs.length - (-k).toNat)

/-- Embedding of the response processing of CommentsMixin.get_issue_comments
(comments.py lines 39-50): take the comments list from the response with
default empty, truncate it with the slice [:limit], and map each comment
dict through the per-comment mapping.  A comments value that is not a
list, or a comment that is not a dict, is a shape on which the Python code
raises (re-raised wrapped by the handler on line 51), recorded by the
error constructor. -/
def get_issue_comments (clean_text : PyVal → PyVal)
    (str_parse_date : PyVal → String) (response : List (String × PyVal))
    (limit : Int) : Except Unit (List ProcessedComment) :=
  match pyDictGet response "comments" (.list []) with
  | .list cs =>
    (pySliceTake limit cs).mapM fun c =>
      match c with
      | .dict fields => process_comment clean_text str_parse_date fields
      | _ => .error ()
  | _ => .error ()

/-- Flat worklog record built by WorklogMixin.get_worklogs (worklog.py
lines 122-136). -/
structure ProcessedWorklog where
  id : PyVal
  comment : PyVal
  created : String
  updated : String
  started : String
  timeSpent : PyVal
  timeSpentSeconds : PyVal
  author : PyVal

/-- Embedding of the per-worklog mapping in WorklogMixin.get_worklogs
(worklog.py lines 122-136), parameterised like the comment mapping.  Note
the date fields here default to the empty string, unlike the comment
mapping which passes None. -/
def process_worklog (clean_text : PyVal → PyVal)
    (str_parse_date : PyVal → String) (worklog : List (String × PyVal)) :
    Except Unit ProcessedWorklog :=
  match pyDictGet worklog "author" (.dict []) with
  | .dict afs =>
    .ok
      { id := pyDictGet worklog "id" .pynone
        comment := clean_text (pyDictGet worklog "comment" (.str ""))
        created := str_parse_date (pyDictGet worklog "created" (.str ""))
        updated := str_parse_date (pyDictGet worklog "updated" (.str ""))
        started := str_parse_date (pyDictGet worklog "started" (.str ""))
        timeSpent := pyDictGet worklog "timeSpent" (.str "")
        timeSpentSeconds := pyDictGet worklog "timeSpentSeconds" (.int 0)
        author := pyDictGet afs "displayName" (.str "Unknown") }
  | _ => .error ()

/-- Exceptions of the Confluence pages module, as distinguished by the
handler chains in pages.py.  httpError is requests HTTPError with the
optional response status code; requestException is any other requests
RequestException; authError is MCPAtlassianAuthenticationError;
wrappedError is the generic raise Exception(...) from e re-raise; the
remaining constructors are the builtin exception classes named by the
handlers of get_page_by_title. -/
inductive PyExn where
  | httpError (status : Option Nat) : PyExn
  | requestException : PyExn
  | keyError : PyExn
  | valueError : PyExn
  | typeError : PyExn
  | otherError : PyExn
  | authError (status : Nat) : PyExn
  | wrappedError : PyExn
  deriving DecidableEq

/-- Embedding of the exception dispatch of PagesMixin.get_page_content
(pages.py lines 59-77), parameterised by the outcome of the try body: an
HTTPError with status 401 or 403 is re-raised as the authentication error
carrying that status, any other HTTPError is re-raised unchanged, and
every other exception is re-raised wrapped in a generic Exception. -/
def get_page_content (body : Except PyExn α) : Except PyExn α :=
  match body with
  | .ok a => .ok a
  | .error (.httpError (some code)) =>
      if code = 401 ∨ code = 403 then .error (.authError code)
      else .error (.httpError (some code))
  | .error (.httpError none) => .error (.httpError none)
  | .error _ => .error .wrappedError

/-- Embedding of the exception dispatch of PagesMixin.get_page_ancestors
(pages.py lines 109-126): the HTTPError handling is identical to
get_page_content, but every non-HTTPError exception is swallowed and the
empty list returned. -/
def get_page_ancestors (body : Except PyExn (List α)) :
    Except PyExn (List α) :=
  match body with
  | .ok a => .ok a
  | .error (.httpError (some code)) =>
      if code = 401 ∨ code = 403 then .error (.authError code)
      else .error (.httpError (some code))
  | .error (.httpError none) => .error (.httpError none)
  | .error _ => .ok []

/-- Embedding of the exception dispatch of PagesMixin.get_page_by_title
(pages.py lines 185-198).  The four handlers (KeyError, then requests
RequestException which also catches its subclass HTTPError, then
ValueError and TypeError, then Exception) all swallow the exception and
return None; there is no HTTPError status inspection in this function. -/
def get_page_by_title (body : Except PyExn (Option α)) :
    Except PyExn (Option α) :=
  match body with
  | .ok r => .ok r
  | .error .keyError => .ok none
  | .error (.httpError _) => .ok none
  | .error .requestException => .ok none
  | .error .valueError => .ok none
  | .error .typeError => .ok none
  | .error _ => .ok none

/-- Embedding of the exception dispatch of PagesMixin.get_page_children
(pages.py lines 442-445): the single Exception handler swallows every
exception, HTTPError included, and returns the empty list. -/
def get_page_children (body : Except PyExn (List α)) :
    Except PyExn (List α) :=
  match body with
  | .ok a => .ok a
  | .error _ => .ok []

/-- Scan-and-fallback phase of the duration algorithm as the spec words
it: scan all value-unit substrings and sum each value times unit-seconds;
if no matches produced a nonzero sum, attempt parsing the whole string as
a float then int; if all parsing fails, default to 60 seconds.  The
attempt succeeds exactly when it produces an integer, and every failure
defaults uniformly: the spec's algorithm has no raising outcome, so its
result type is a plain integer. -/
def specScanPhase (s : String) : Int :=
  if matchSum s ≠ 0 then (matchSum s : Int)
  else
    match pyIntOfFloat s with
    | .ok n => n
    | _ => 60

/-- The duration-parsing algorithm exactly as the spec section 4.1 words
it, to be compared with the embedding parse_time_spent of the code: if
the string ends in s, attempt a direct integer parse of the part before
the final s (falling through to the next phase when that attempt fails),
otherwise run the scan-and-fallback phase.  Total: for every input it
returns some integer. -/
def spec_parse_time_spent (s : String) : Int :=
  if endsWithS s then
    match pyIntOfString (pyDropLast s) with
    | some n => n
    | none => specScanPhase s
  else specScanPhase s

/-- String assembled from an initial filler followed by fragments, each
consisting of a digit run, a unit letter, and a trailing filler; used to
state that characters outside the value-unit matches never contribute. -/
def buildTimeString (filler0 : List Char)
    (items : List (List Char × Char × List Char)) : List Char :=
  filler0 ++ (items.map (fun it => it.1 ++ it.2.1 :: it.2.2)).flatten

/-- Whether the exception models a requests HTTPError. -/
def isHTTPError : PyExn → Bool
  | .httpError _ => true
  | _ => false

/-- Helper: pyDictGet returns the default when the key is absent. -/
theorem pyDictGet_of_not_mem (l : List (String × PyVal)) (key : String)
    (d : PyVal) (h : ∀ v, (key, v) ∉ l) : pyDictGet l key d = d := by
  induction l with
  | nil => rfl
  | cons kv rest ih =>
    obtain ⟨k, v⟩ := kv
    have hk : k ≠ key := by
      intro hk
      exact h v (by simp [hk])
    simp only [pyDictGet, if_neg (fun hkk => hk hkk)]
    exact ih (fun v hv => h v (List.mem_cons_of_mem _ hv))

/-- Counterexample to C1 as stated: on the input inf the code does not
compute seconds by the stated algorithm.  The algorithm ends with a
catch-all default, returning 60 when all parsing fails, so it yields 60
on inf; _parse_time_spent instead raises OverflowError out of
int(float(s)) and returns no integer at all. -/
theorem parse_time_spent_deviates_from_spec_on_inf :
    spec_parse_time_spent "inf" = 60 ∧
    parse_time_spent "inf" = .overflowError ∧
    parse_time_spent "inf" ≠ .ok (spec_parse_time_spent "inf") := by
  decide

/-- C1 amended: on every input string on which _parse_time_spent returns
at all (every string except those whose numeric fallback reaches an
infinite float and raises OverflowError, such as inf), it returns exactly
the result of the algorithm as the spec states it (seconds-suffix integer
attempt, then summed value-unit matches, then whole-string float-to-int
fallback, then the 60-second default for every remaining failure), and in
particular parses 1w 2d 3h 4m to 788640, 1h 30m to 5400, and invalid to
60. -/
theorem parse_time_spent_follows_spec_algorithm_unless_overflow :
    (∀ s : String, parse_time_spent s ≠ .overflowError →
      parse_time_spent s = .ok (spec_parse_time_spent s)) ∧
    parse_time_spent "1w 2d 3h 4m" = .ok 788640 ∧
    parse_time_spent "1h 30m" = .ok 5400 ∧
    parse_time_spent "invalid" = .ok 60 := by
  refine ⟨fun s => ?_, by decide, by decide, by decide⟩
  unfold parse_time_spent spec_parse_time_spent specScanPhase
  cases h : endsWithS s
  · simp only [Bool.false_eq_true, if_false]
    by_cases ht : matchSum s = 0
    · cases hf : pyIntOfFloat s <;> simp [ht, hf]
    · simp [ht]
  · simp only [if_true]
    cases hp : pyIntOfString (pyDropLast s)
    · by_cases ht : matchSum s = 0
      · cases hf : pyIntOfFloat s <;> simp [ht, hf]
      · simp [ht]
    · simp

/-- Witness for the amended C1: the input 1h 30m does not raise, and the
code result equals the spec algorithm's result, 5400 seconds. -/
theorem parse_time_spent_follows_spec_unless_overflow_witness :
    parse_time_spent "1h 30m" = .ok (spec_parse_time_spent "1h 30m") ∧
    spec_parse_time_spent "1h 30m" = 5400 :=
  ⟨parse_time_spent_follows_spec_algorithm_unless_overflow.1 "1h 30m"
     (by decide),
   by decide⟩

/-- C2: add_comment resolves visibility with three-tier precedence: the
global force flag makes every comment internal, explicit public included;
without the flag a missing visibility means public; otherwise the comment
is public exactly when the lowercased value is public, so that internal
matches case-insensitively and any unrecognised value fails safe to
internal.  The spec examples are included: force with explicit public is
internal, no force and no explicit value is public, and no force with
INTERNAL is internal. -/
theorem add_comment_visibility_precedence :
    (∀ visibility : Option String, should_be_internal true visibility = true) ∧
    should_be_internal false none = false ∧
    (∀ v : String,
      should_be_internal false (some v) = !(decide (pyLower v = "public"))) ∧
    should_be_internal true (some "public") = true ∧
    should_be_internal false none = false ∧
    should_be_internal false (some "INTERNAL") = true := by
  refine ⟨fun v => rfl, rfl, fun v => ?_, by decide, rfl, by decide⟩
  by_cases h1 : pyLower v = "internal"
  · have h2 : ¬pyLower v = "public" := by
      rw [h1]
      decide
    simp [should_be_internal, h1, h2]
  · by_cases h2 : pyLower v = "public" <;> simp [should_be_internal, h1, h2]

/-- C6: whenever the resolved visibility is internal, add_comment posts
through the direct low-level POST whose body carries the properties entry
with key sd.public.comment and value mapping internal to true; whenever it
is public, it posts through the standard issue_add_comment call, which
carries no properties. -/
theorem add_comment_posting_route :
    ∀ (force : Bool) (visibility : Option String)
      (base_url issue_key formatted : String),
      (should_be_internal force visibility = true →
        add_comment_request force visibility base_url issue_key formatted =
          .post (base_url ++ "/" ++ issue_key ++ "/comment")
            (.dict
              [("body", .str formatted),
               ("properties",
                .list
                  [.dict
                    [("key", .str "sd.public.comment"),
                     ("value", .dict [("internal", .bool true)])]])])) ∧
      (should_be_internal force visibility = false →
        add_comment_request force visibility base_url issue_key formatted =
          .issue_add_comment issue_key formatted) := by
  intro force visibility base_url issue_key formatted
  constructor <;> intro h <;> simp [add_comment_request, h]

/-- Witness for C6 at concrete inputs: forced comments go through the
direct POST carrying the service-desk property, unforced default
visibility goes through the standard call. -/
theorem add_comment_posting_route_witness :
    add_comment_request true none "https://x/rest/api/2/issue" "K-1" "txt" =
      .post ("https://x/rest/api/2/issue" ++ "/" ++ "K-1" ++ "/comment")
        (.dict
          [("body", .str "txt"),
           ("properties",
            .list
              [.dict
                [("key", .str "sd.public.comment"),
                 ("value", .dict [("internal", .bool true)])]])]) ∧
    add_comment_request false none "https://x/rest/api/2/issue" "K-1" "txt" =
      .issue_add_comment "K-1" "txt" :=
  ⟨(add_comment_posting_route true none "https://x/rest/api/2/issue" "K-1"
      "txt").1 (by decide),
   (add_comment_posting_route false none "https://x/rest/api/2/issue" "K-1"
      "txt").2 (by decide)⟩

/-- C5: the duration string 0h has unit matches summing to zero, its
whole-string float parse raises ValueError, and _parse_time_spent returns
the 60-second default on it, whereas the bare string 0 succeeds in the
numeric fallback and returns 0 seconds. -/
theorem zero_duration_fallback :
    matchSum "0h" = 0 ∧
    pyIntOfFloat "0h" = .valueError ∧
    parse_time_spent "0h" = .ok 60 ∧
    pyIntOfFloat "0" = .ok 0 ∧
    parse_time_spent "0" = .ok 0 := by
  decide

/-- Counterexample to C3 as stated: get_page_children is a page operation,
yet on an underlying HTTPError with status 403 it swallows the error and
returns the empty list instead of re-raising it as the authentication
error. -/
theorem get_page_children_swallows_auth_error :
    get_page_children
        (Except.error (PyExn.httpError (some 403)) : Except PyExn (List Unit))
      = .ok [] ∧
    get_page_children
        (Except.error (PyExn.httpError (some 403)) : Except PyExn (List Unit))
      ≠ .error (.authError 403) :=
  ⟨rfl, fun h => Except.noConfusion h⟩

/-- C3 amended: when the underlying call fails with an HTTPError carrying
status 401 or 403, get_page_content and get_page_ancestors re-raise it as
the authentication-specific error, while get_page_by_title and
get_page_children swallow it and return None or an empty list instead. -/
theorem page_auth_error_classification :
    ∀ (α : Type) (code : Nat), code = 401 ∨ code = 403 →
      get_page_content
          (Except.error (PyExn.httpError (some code)) : Except PyExn α)
        = .error (.authError code) ∧
      get_page_ancestors
          (Except.error (PyExn.httpError (some code)) : Except PyExn (List α))
        = .error (.authError code) ∧
      get_page_by_title
          (Except.error (PyExn.httpError (some code)) : Except PyExn (Option α))
        = .ok none ∧
      get_page_children
          (Except.error (PyExn.httpError (some code)) : Except PyExn (List α))
        = .ok [] := by
  intro α code hc
  refine ⟨?_, ?_, rfl, rfl⟩ <;>
    simp [get_page_content, get_page_ancestors, hc]

/-- Witness for the amended C3 at status 401. -/
theorem page_auth_error_classification_witness :
    get_page_content
        (Except.error (PyExn.httpError (some 401)) : Except PyExn Unit)
      = .error (.authError 401) ∧
    get_page_ancestors
        (Except.error (PyExn.httpError (some 401)) : Except PyExn (List Unit))
      = .error (.authError 401) ∧
    get_page_by_title
        (Except.error (PyExn.httpError (some 401)) : Except PyExn (Option Unit))
      = .ok none ∧
    get_page_children
        (Except.error (PyExn.httpError (some 401)) : Except PyExn (List Unit))
      = .ok [] :=
  page_auth_error_classification Unit 401 (Or.inl rfl)

/-- Counterexample to C4 as stated: get_page_ancestors is one of the
best-effort lookups, yet an HTTPError with status 401 raised by the
underlying client is not swallowed; it propagates as the authentication
error rather than producing the empty list. -/
theorem get_page_ancestors_reraises_http_error :
    get_page_ancestors
        (Except.error (PyExn.httpError (some 401)) : Except PyExn (List Unit))
      = .error (.authError 401) ∧
    get_page_ancestors
        (Except.error (PyExn.httpError (some 401)) : Except PyExn (List Unit))
      ≠ .ok [] :=
  ⟨rfl, fun h => Except.noConfusion h⟩

/-- C4 amended: get_page_children and get_page_by_title swallow every
exception from the underlying client, returning the empty list or None;
get_page_ancestors swallows only non-HTTPError exceptions, and re-raises
an HTTPError, as the authentication error when its status is 401 or 403
and unchanged otherwise. -/
theorem best_effort_lookup_swallowing :
    ∀ (α : Type) (e : PyExn),
      (get_page_children (Except.error e : Except PyExn (List α)) = .ok [] ∧
       get_page_by_title (Except.error e : Except PyExn (Option α))
         = .ok none) ∧
      (isHTTPError e = false →
        get_page_ancestors (Except.error e : Except PyExn (List α))
          = .ok []) ∧
      (∀ code : Nat, code = 401 ∨ code = 403 →
        get_page_ancestors
            (Except.error (PyExn.httpError (some code)) :
              Except PyExn (List α))
          = .error (.authError code)) ∧
      (∀ code : Nat, ¬(code = 401 ∨ code = 403) →
        get_page_ancestors
            (Except.error (PyExn.httpError (some code)) :
              Except PyExn (List α))
          = .error (.httpError (some code))) := by
  intro α e
  refine ⟨⟨rfl, ?_⟩, ?_, ?_, ?_⟩
  · cases e <;> rfl
  · intro he
    cases e <;> first | rfl | simp [isHTTPError] at he
  · intro code hc
    simp [get_page_ancestors, hc]
  · intro code hc
    simp [get_page_ancestors, hc]

/-- Witness for the amended C4: a generic exception is swallowed by all
three best-effort lookups, and get_page_ancestors maps an HTTPError with
status 401 to the authentication error and re-raises one with status 500
unchanged. -/
theorem best_effort_lookup_swallowing_witness :
    (get_page_children (Except.error PyExn.otherError : Except PyExn (List Unit))
       = .ok [] ∧
     get_page_by_title (Except.error PyExn.otherError : Except PyExn (Option Unit))
       = .ok none) ∧
    get_page_ancestors (Except.error PyExn.otherError : Except PyExn (List Unit))
      = .ok [] ∧
    get_page_ancestors
        (Except.error (PyExn.httpError (some 401)) : Except PyExn (List Unit))
      = .error (.authError 401) ∧
    get_page_ancestors
        (Except.error (PyExn.httpError (some 500)) : Except PyExn (List Unit))
      = .error (.httpError (some 500)) :=
  ⟨(best_effort_lookup_swallowing Unit PyExn.otherError).1,
   (best_effort_lookup_swallowing Unit PyExn.otherError).2.1 rfl,
   (best_effort_lookup_swallowing Unit PyExn.otherError).2.2.1 401
     (Or.inl rfl),
   (best_effort_lookup_swallowing Unit PyExn.otherError).2.2.2 500
     (by decide)⟩

/-- Helper: a unit letter is not a digit. -/
theorem unit_char_not_digit (c : Char) (h : isUnitChar c = true) :
    c.isDigit = false := by
  simp only [isUnitChar, Bool.or_eq_true, decide_eq_true_eq] at h
  rcases h with ((h | h) | h) | h <;> subst h <;> decide

/-- Helper: the scan in its initial state passes over digit-free text. -/
theorem findTimeMatchesAux_filler (fill rest : List Char)
    (h : ∀ c ∈ fill, c.isDigit = false) :
    findTimeMatchesAux none (fill ++ rest) = findTimeMatchesAux none rest := by
  induction fill with
  | nil => rfl
  | cons c cs ih =>
    have hc : c.isDigit = false := h c (by simp)
    simp only [List.cons_append, findTimeMatchesAux, hc, Bool.false_eq_true,
      if_false]
    exact ih (fun x hx => h x (by simp [hx]))

/-- Helper: the scan folds a digit run into its accumulator. -/
theorem findTimeMatchesAux_digits (ds : List Char) (rest : List Char)
    (acc : Nat) (h : ∀ c ∈ ds, c.isDigit = true) :
    findTimeMatchesAux (some acc) (ds ++ rest)
      = findTimeMatchesAux
          (some (ds.foldl (fun a c => a * 10 + digitVal c) acc)) rest := by
  induction ds generalizing acc with
  | nil => rfl
  | cons c cs ih =>
    have hc : c.isDigit = true := h c (by simp)
    simp only [List.cons_append, findTimeMatchesAux, hc, if_true,
      Option.getD_some, List.foldl_cons]
    exact ih _ (fun x hx => h x (by simp [hx]))

/-- Helper: a nonempty digit run immediately followed by a unit letter
produces exactly one match, valued at the run, and the scan resumes after
the unit letter. -/
theorem findTimeMatchesAux_match (run : List Char) (u : Char)
    (rest : List Char) (hrun : run ≠ [])
    (hd : ∀ c ∈ run, c.isDigit = true) (hu : isUnitChar u = true) :
    findTimeMatchesAux none (run ++ u :: rest)
      = (digitsToNat run, u) :: findTimeMatchesAux none rest := by
  cases run with
  | nil => exact absurd rfl hrun
  | cons c cs =>
    have hc : c.isDigit = true := hd c (by simp)
    have hcs : ∀ x ∈ cs, x.isDigit = true := fun x hx => hd x (by simp [hx])
    have hund : u.isDigit = false := unit_char_not_digit u hu
    simp only [List.cons_append, findTimeMatchesAux, hc, if_true,
      Option.getD_none, Nat.zero_mul, Nat.zero_add]
    show findTimeMatchesAux (some (digitVal c)) (cs ++ u :: rest) = _
    rw [findTimeMatchesAux_digits cs (u :: rest) (digitVal c) hcs]
    simp only [findTimeMatchesAux, hund, Bool.false_eq_true, if_false, hu,
      if_true, digitsToNat, List.foldl_cons, Nat.zero_mul, Nat.zero_add]

/-- Helper: the matches of an assembled filler-and-fragment string are
exactly the fragments, in order. -/
theorem findTimeMatches_buildTimeString
    (items : List (List Char × Char × List Char)) (filler0 : List Char)
    (h0 : ∀ c ∈ filler0, c.isDigit = false)
    (hitems : ∀ it ∈ items, it.1 ≠ [] ∧ (∀ c ∈ it.1, c.isDigit = true) ∧
      isUnitChar it.2.1 = true ∧ (∀ c ∈ it.2.2, c.isDigit = false)) :
    findTimeMatches (buildTimeString filler0 items)
      = items.map (fun it => (digitsToNat it.1, it.2.1)) := by
  induction items generalizing filler0 with
  | nil =>
    show findTimeMatchesAux none (filler0 ++ []) = []
    rw [findTimeMatchesAux_filler filler0 [] h0]
    rfl
  | cons it rest ih =>
    obtain ⟨hne, hdig, hu, hfill⟩ := hitems it (by simp)
    have hrest : ∀ x ∈ rest, x.1 ≠ [] ∧ (∀ c ∈ x.1, c.isDigit = true) ∧
        isUnitChar x.2.1 = true ∧ (∀ c ∈ x.2.2, c.isDigit = false) :=
      fun x hx => hitems x (by simp [hx])
    have hshape : buildTimeString filler0 (it :: rest)
        = filler0 ++ (it.1 ++ it.2.1 :: buildTimeString it.2.2 rest) := by
      simp [buildTimeString, List.append_assoc]
    show findTimeMatchesAux none (buildTimeString filler0 (it :: rest)) = _
    rw [hshape, findTimeMatchesAux_filler filler0 _ h0,
      findTimeMatchesAux_match it.1 it.2.1 _ hne hdig hu]
    rw [show findTimeMatchesAux none (buildTimeString it.2.2 rest)
        = findTimeMatches (buildTimeString it.2.2 rest) from rfl]
    rw [ih it.2.2 hfill hrest]
    rfl

/-- Helper: the accumulation loop over matches equals the initial value
plus the sum of the mapped contributions. -/
theorem foldl_units_add (l : List (Nat × Char)) (a : Nat) :
    l.foldl (fun acc m => acc + m.1 * time_units m.2) a
      = a + (l.map (fun m => m.1 * time_units m.2)).sum := by
  induction l generalizing a with
  | nil => simp
  | cons m l ih => simp [ih, Nat.add_assoc]

/-- C7: characters of the input outside every value-unit match are
silently ignored, never contributing to the sum, and repeated units are
summed rather than overridden: any string assembled from digit-free
fillers around value-unit fragments yields exactly those fragments as
matches, its match sum is the sum of the fragment contributions, and in
particular 1h 1h parses to 7200 seconds. -/
theorem unmatched_chars_ignored_duplicate_units_summed :
    (∀ (filler0 : List Char) (items : List (List Char × Char × List Char)),
      (∀ c ∈ filler0, c.isDigit = false) →
      (∀ it ∈ items, it.1 ≠ [] ∧ (∀ c ∈ it.1, c.isDigit = true) ∧
        isUnitChar it.2.1 = true ∧ (∀ c ∈ it.2.2, c.isDigit = false)) →
      findTimeMatches (buildTimeString filler0 items)
          = items.map (fun it => (digitsToNat it.1, it.2.1)) ∧
      matchSum ⟨buildTimeString filler0 items⟩
          = (items.map
              (fun it => digitsToNat it.1 * time_units it.2.1)).sum) ∧
    parse_time_spent "1h 1h" = .ok 7200 := by
  refine ⟨fun filler0 items h0 hitems => ?_, by decide⟩
  have hm := findTimeMatches_buildTimeString items filler0 h0 hitems
  refine ⟨hm, ?_⟩
  have hs : matchSum ⟨buildTimeString filler0 items⟩
      = ((findTimeMatches (buildTimeString filler0 items)).map
          (fun m => m.1 * time_units m.2)).sum := by
    unfold matchSum
    simpa using
      foldl_units_add (findTimeMatches (buildTimeString filler0 items)) 0
  rw [hs, hm, List.map_map]
  rfl

/-- Witness for C7: on the string a 1h z1h, assembled from the fillers
a-space, space-z, and empty around two 1h fragments, the scan finds
exactly the two matches and the match sum is 7200. -/
theorem unmatched_chars_ignored_duplicate_units_summed_witness :
    findTimeMatches
        (buildTimeString ['a', ' '] [(['1'], 'h', [' ', 'z']), (['1'], 'h', [])])
      = [(1, 'h'), (1, 'h')] ∧
    matchSum
        ⟨buildTimeString ['a', ' ']
          [(['1'], 'h', [' ', 'z']), (['1'], 'h', [])]⟩
      = 7200 := by
  have h := unmatched_chars_ignored_duplicate_units_summed.1 ['a', ' ']
    [(['1'], 'h', [' ', 'z']), (['1'], 'h', [])] (by decide) (by decide)
  exact ⟨h.1.trans (by decide), h.2.trans (by decide)⟩

/-- C8: the response-to-model mapping substitutes defaults for missing
fields: a comment record without an author key maps to the author Unknown
and one without a body key maps to the empty string (given that the
externally supplied _clean_text helper is the identity on the empty
string, which the mapping routes the default through); a worklog record
without its text fields maps them to empty strings, a missing author to
Unknown, and a missing timeSpentSeconds to the number 0. -/
theorem missing_field_defaults :
    ∀ (clean_text : PyVal → PyVal) (str_parse_date : PyVal → String)
      (c w : List (String × PyVal)),
      clean_text (.str "") = .str "" →
      (∀ v, ("author", v) ∉ c) → (∀ v, ("body", v) ∉ c) →
      (∀ v, ("author", v) ∉ w) → (∀ v, ("comment", v) ∉ w) →
      (∀ v, ("timeSpent", v) ∉ w) → (∀ v, ("timeSpentSeconds", v) ∉ w) →
      (∃ pc, process_comment clean_text str_parse_date c = .ok pc ∧
        pc.author = .str "Unknown" ∧ pc.body = .str "") ∧
      (∃ pw, process_worklog clean_text str_parse_date w = .ok pw ∧
        pw.author = .str "Unknown" ∧ pw.comment = .str "" ∧
        pw.timeSpent = .str "" ∧ pw.timeSpentSeconds = .int 0) := by
  intro ct spd c w hclean hca hcb hwa hwc hwt hws
  have hA := pyDictGet_of_not_mem c "author" (.dict []) hca
  have hB := pyDictGet_of_not_mem c "body" (.str "") hcb
  have hA2 := pyDictGet_of_not_mem w "author" (.dict []) hwa
  have hC2 := pyDictGet_of_not_mem w "comment" (.str "") hwc
  have hT2 := pyDictGet_of_not_mem w "timeSpent" (.str "") hwt
  have hS2 := pyDictGet_of_not_mem w "timeSpentSeconds" (.int 0) hws
  constructor
  · have heq : process_comment ct spd c =
        .ok { id := pyDictGet c "id" .pynone
              body := ct (pyDictGet c "body" (.str ""))
              created := spd (pyDictGet c "created" .pynone)
              updated := spd (pyDictGet c "updated" .pynone)
              author := pyDictGet [] "displayName" (.str "Unknown") } := by
      unfold process_comment
      rw [hA]
    exact ⟨_, heq, rfl, by rw [hB, hclean]⟩
  · have heq : process_worklog ct spd w =
        .ok { id := pyDictGet w "id" .pynone
              comment := ct (pyDictGet w "comment" (.str ""))
              created := spd (pyDictGet w "created" (.str ""))
              updated := spd (pyDictGet w "updated" (.str ""))
              started := spd (pyDictGet w "started" (.str ""))
              timeSpent := pyDictGet w "timeSpent" (.str "")
              timeSpentSeconds := pyDictGet w "timeSpentSeconds" (.int 0)
              author := pyDictGet [] "displayName" (.str "Unknown") } := by
      unfold process_worklog
      rw [hA2]
    exact ⟨_, heq, rfl, by rw [hC2, hclean], hT2, hS2⟩

/-- Witness for C8 at the empty comment and worklog records, with the
identity as the clean-text helper and the constant empty string as the
date formatter. -/
theorem missing_field_defaults_witness :
    (∃ pc, process_comment (fun v => v) (fun _ => "") [] = .ok pc ∧
      pc.author = .str "Unknown" ∧ pc.body = .str "") ∧
    (∃ pw, process_worklog (fun v => v) (fun _ => "") [] = .ok pw ∧
      pw.author = .str "Unknown" ∧ pw.comment = .str "" ∧
      pw.timeSpent = .str "" ∧ pw.timeSpentSeconds = .int 0) :=
  missing_field_defaults (fun v => v) (fun _ => "") [] [] rfl
    (fun _ => List.not_mem_nil _) (fun _ => List.not_mem_nil _)
    (fun _ => List.not_mem_nil _) (fun _ => List.not_mem_nil _)
    (fun _ => List.not_mem_nil _) (fun _ => List.not_mem_nil _)

/-- Helper: mapping the dict constructor over the comment list and then
running the element dispatch of get_issue_comments is the per-comment
mapping. -/
theorem mapM_dict_process (clean_text : PyVal → PyVal)
    (str_parse_date : PyVal → String)
    (cs : List (List (String × PyVal))) :
    ((cs.map PyVal.dict).mapM fun c =>
        match c with
        | PyVal.dict fields => process_comment clean_text str_parse_date fields
        | _ => Except.error ())
      = cs.mapM (process_comment clean_text str_parse_date) := by
  induction cs with
  | nil => rfl
  | cons x xs ih => simp only [List.map_cons, List.mapM_cons, ih]

/-- Helper: taking min n (length) elements is the same as taking n. -/
theorem take_min_len (l : List α) (n : Nat) :
    l.take (min n l.length) = l.take n := by
  rcases Nat.le_total n l.length with h | h
  · rw [Nat.min_eq_left h]
  · rw [Nat.min_eq_right h, List.take_of_length_le h,
      List.take_of_length_le (Nat.le_refl _)]

/-- C9: get_issue_comments truncates to the limit while preserving the
order of the response: on a response whose comments entry holds the given
comment dicts and a nonnegative limit k, the result is the per-comment
mapping of exactly the first min(k, n) comments in their original order. -/
theorem get_issue_comments_limit_truncation :
    ∀ (clean_text : PyVal → PyVal) (str_parse_date : PyVal → String)
      (cs : List (List (String × PyVal))) (k : Int),
      0 ≤ k →
      get_issue_comments clean_text str_parse_date
          [("comments", .list (cs.map PyVal.dict))] k
        = (cs.take (min k.toNat cs.length)).mapM
            (process_comment clean_text str_parse_date) := by
  intro ct spd cs k hk
  have hslice : pySliceTake k (cs.map PyVal.dict)
      = (cs.take k.toNat).map PyVal.dict := by
    rw [pySliceTake, if_pos hk, ← List.map_take]
  calc get_issue_comments ct spd [("comments", .list (cs.map PyVal.dict))] k
      = ((pySliceTake k (cs.map PyVal.dict)).mapM fun c =>
          match c with
          | PyVal.dict fields => process_comment ct spd fields
          | _ => Except.error ()) := rfl
    _ = (((cs.take k.toNat).map PyVal.dict).mapM fun c =>
          match c with
          | PyVal.dict fields => process_comment ct spd fields
          | _ => Except.error ()) := by rw [hslice]
    _ = (cs.take k.toNat).mapM (process_comment ct spd) :=
          mapM_dict_process ct spd _
    _ = (cs.take (min k.toNat cs.length)).mapM (process_comment ct spd) := by
          rw [take_min_len]

/-- Witness for C9: a response with three comments and limit 2 yields
exactly the mapped first two comments, in order. -/
theorem get_issue_comments_limit_truncation_witness :
    get_issue_comments (fun v => v) (fun _ => "")
        [("comments",
          PyVal.list
            [.dict [("id", .int 1)], .dict [("id", .int 2)],
             .dict [("id", .int 3)]])] 2
      = .ok
          [{ id := .int 1, body := .str "", created := "", updated := "",
             author := .str "Unknown" },
           { id := .int 2, body := .str "", created := "", updated := "",
             author := .str "Unknown" }] := by
  have h := get_issue_comments_limit_truncation (fun v => v) (fun _ => "")
    [[("id", PyVal.int 1)], [("id", PyVal.int 2)], [("id", PyVal.int 3)]] 2
    (by decide)
  exact h.trans rfl

/-- C10 is refuted by the code: on the input inf the numeric fallback
int(float(s)) raises OverflowError, which the except ValueError handler
in worklog.py lines 53-60 does not catch, so _parse_time_spent raises
instead of returning an integer, contradicting the inline comment that
all remaining failures default to 60 seconds. -/
theorem parse_time_spent_raises_on_inf :
    parse_time_spent "inf" = .overflowError ∧
    pyIntOfFloat "inf" = .overflowError := by
  decide

end MCPAtlassian
